import Mathlib

/-!
Shallow embedding of the core of `crestron_mcp.py`: session lifecycle,
the authenticated request dispatcher, percentage/raw unit conversion,
batch shade commands, response truncation, and the natural-language
device resolver.  Remote HTTP calls are modelled as explicit
`Except`-valued oracles passed to each operation; the second component
of a dispatcher result counts how many network calls were attempted.
Timestamps are natural numbers (seconds of monotonic time); Python
floats in the scoring heuristic are modelled as rationals, which agrees
with IEEE double arithmetic on every concrete value appearing below.
-/

namespace Crestron

/-- Source constant `CHARACTER_LIMIT = 25000`. -/
def CHARACTER_LIMIT : ℕ := 25000

/-- Source constant `SESSION_TIMEOUT = 540` (9 minutes: the remote's
10-minute window minus a 1-minute buffer). -/
def SESSION_TIMEOUT : ℕ := 540

/-- State of the process-wide `CrestronSession` object: `host`,
`auth_key` and `session_start` are all `Optional` in the source and
start out `None`.  The HTTP client handle is not modelled. -/
structure CrestronSession where
  host : Option String
  auth_key : Option String
  session_start : Option ℕ
deriving Repr, DecidableEq

/-- Embedding of `CrestronSession.is_valid`.  Python truthiness is kept:
`not self.auth_key` is `True` for `None` and for the empty string, and
`not self.session_start` is `True` for `None` and for time `0.0`.  The
elapsed-time comparison `now - session_start < SESSION_TIMEOUT` is over
the integers (the source subtracts floats, which can be negative). -/
def is_valid (s : CrestronSession) (now : ℕ) : Bool :=
  match s.auth_key, s.session_start with
  | none, _ => false
  | some _, none => false
  | some k, some t =>
    if k = "" then false
    else if t = 0 then false
    else decide ((now : ℤ) - (t : ℤ) < (SESSION_TIMEOUT : ℤ))

/-- Embedding of `CrestronSession.clear`. -/
def clear (s : CrestronSession) : CrestronSession :=
  { s with auth_key := none, session_start := none }

/-- Errors surfaced by the dispatcher: the local `ValueError` raised
when authentication is required but the session is invalid, and the
`httpx.HTTPStatusError` raised by `raise_for_status` on a non-2xx
remote status. -/
inductive ApiError where
  | notAuthenticated
  | remoteError (statusCode : ℕ)
deriving Repr, DecidableEq

/-- Embedding of `api_request`.  The remote is an oracle: `Except.ok a`
models a 2xx response with parsed body `a`, `Except.error c` a non-2xx
status `c`.  The second component of the result counts network calls
actually attempted, so the not-authenticated early exit carries `0`. -/
def api_request {α : Type} (require_auth : Bool) (s : CrestronSession) (now : ℕ)
    (remote : Except ℕ α) : Except ApiError α × ℕ :=
  if require_auth && !(is_valid s now) then
    (Except.error ApiError.notAuthenticated, 0)
  else
    match remote with
    | Except.ok a => (Except.ok a, 1)
    | Except.error c => (Except.error (ApiError.remoteError c), 1)

/-- Parsed body of a 2xx `/login` response; `authKey` is
`data.get("AuthKey")`, hence `Option`, and likewise `version`. -/
structure LoginData where
  authKey : Option String
  version : Option String
deriving Repr, DecidableEq

/-- Embedding of the helper `authenticate(host, auth_token)`.  The
source performs the GET, calls `raise_for_status`, parses JSON, and
only then mutates the global session; so on a failed remote exchange
the state is returned untouched, and on success the three fields are
overwritten with the new host, the (possibly missing) `AuthKey`, and
the current time. -/
def authenticate (s : CrestronSession) (host : String) (now : ℕ)
    (remote : Except ℕ LoginData) : CrestronSession × Except ℕ LoginData :=
  match remote with
  | Except.error c => (s, Except.error c)
  | Except.ok d =>
    ({ host := some host, auth_key := d.authKey, session_start := some now },
     Except.ok d)

/-- Caller-facing result of the `crestron_authenticate` tool: the
`status` field of the JSON blob it returns, plus `api_version`
(`result.get("version", "unknown")`) when present. -/
structure AuthResponse where
  status : String
  api_version : Option String
deriving Repr, DecidableEq

/-- Embedding of the `crestron_authenticate` tool body: it calls
`authenticate` and reports `"status": "success"` whenever the remote
exchange returned 2xx, regardless of the parsed body's contents. -/
def crestron_authenticate (s : CrestronSession) (host : String) (now : ℕ)
    (remote : Except ℕ LoginData) : CrestronSession × AuthResponse :=
  match authenticate s host now remote with
  | (s2, Except.ok d) =>
    (s2, { status := "success", api_version := some (d.version.getD "unknown") })
  | (s2, Except.error _) =>
    (s2, { status := "error", api_version := none })

/-- Write-path unit conversion from `crestron_set_shade_position`:
`int(shade.position * 65535 / 100)`.  For `p ∈ [0,100]` the Python
float expression equals the exact rational, truncated toward zero,
which is Lean's natural division. -/
def pct_to_raw (p : ℕ) : ℕ := p * 65535 / 100

/-- Read-path unit conversion from `crestron_get_shades`:
`int(position * 100 / 65535)`, again exact truncation for raw values
in `[0, 65535]`. -/
def raw_to_pct (r : ℕ) : ℕ := r * 100 / 65535

/-- Modelled from the spec: the write-path conversion the spec
prescribes, `raw = round(pct * 65535 / 100)`, round-to-nearest with
halves rounded up.  Exact halves arise only for `p ≡ 10 (mod 20)`; at
every other percentage any nearest-rounding tie rule gives the same
value, so the comparison against the source is tie-rule independent. -/
def spec_round_to_raw (p : ℕ) : ℕ :=
  (p * 65535 + 50) / 100

/-- One entry of the batch body for `/shades/SetState`: a device id and
a position (percentage on input, raw scale after conversion). -/
structure ShadePosition where
  id : ℕ
  position : ℕ
deriving Repr, DecidableEq

/-- Parsed body of a 2xx `/shades/SetState` response
(`{status, errorMessage?, errorDevices?, version?}`). -/
structure SetStateResp where
  status : Option String
  errorMessage : Option String
  errorDevices : Option (List ℕ)
  version : Option String
deriving Repr, DecidableEq

/-- The JSON object built by `crestron_set_shade_position` on a 2xx
remote response: the remote's `status` string verbatim,
`shades_updated` set to the request length, the raw remote body under
`details`, and an advisory `message` for the partial and success
cases.  Note there is no field holding computed succeeded/failed id
sets. -/
structure ShadeSetResponse where
  status : String
  shades_updated : ℕ
  details : SetStateResp
  message : Option String
deriving Repr, DecidableEq

/-- The three exits of `crestron_set_shade_position`: the normal JSON
response, the caught `ValueError` (not authenticated), and the caught
`HTTPStatusError`. -/
inductive SetShadeOutput where
  | ok (r : ShadeSetResponse)
  | valueError
  | httpError (statusCode : ℕ)
deriving Repr, DecidableEq

/-- Embedding of the `crestron_set_shade_position` tool body.  The
remote oracle receives the converted command list (the single wire call
carries the full batch).  The second component counts network calls. -/
def crestron_set_shade_position (shades : List ShadePosition)
    (sess : CrestronSession) (now : ℕ)
    (remote : List ShadePosition → Except ℕ SetStateResp) :
    SetShadeOutput × ℕ :=
  let shades_data := shades.map (fun sh =>
    { id := sh.id, position := pct_to_raw sh.position : ShadePosition })
  match api_request true sess now (remote shades_data) with
  | (Except.error ApiError.notAuthenticated, n) => (SetShadeOutput.valueError, n)
  | (Except.error (ApiError.remoteError c), n) => (SetShadeOutput.httpError c, n)
  | (Except.ok result, n) =>
    let status := result.status.getD "unknown"
    let message : Option String :=
      if status = "partial" then
        some ("Some shades failed to update. Check \x27errorDevices\x27 in details. " ++
          "Verify shade IDs are correct and devices are online.")
      else if status = "success" then
        some ("Successfully updated " ++ toString shades.length ++ " shade(s)")
      else none
    (SetShadeOutput.ok
      { status := status, shades_updated := shades.length,
        details := result, message := message }, n)

/-- Digit grouping for Python's format specifier `:,` — insert a comma
after every three characters of the reversed digit string. -/
def commaGroups : List Char → List Char
  | [] => []
  | [a] => [a]
  | [a, b] => [a, b]
  | [a, b, c] => [a, b, c]
  | a :: b :: c :: d :: rest => a :: b :: c :: ',' :: commaGroups (d :: rest)

/-- Render a natural number the way the f-string `{n:,}` does:
thousands separated by commas. -/
def commaFmt (n : ℕ) : String :=
  String.mk (List.reverse (commaGroups (List.reverse (toString n).data)))

/-- Fixed text of the truncation notice before the original length. -/
def truncNoticeHead : String :=
  "\n\n⚠️ **Response Truncated**\nThe response was truncated from "

/-- Fixed text of the truncation notice between the two lengths. -/
def truncNoticeMid : String := " to "

/-- Fixed text of the truncation notice after the truncated length. -/
def truncNoticeTail : String := " characters. "

/-- Suggestion appended when an item count was supplied. -/
def truncSuggestFiltered : String :=
  "Try using filters, reducing the limit parameter, or requesting specific items to see more details."

/-- Suggestion appended when no item count was supplied. -/
def truncSuggestPlain : String :=
  "Try requesting specific items or using filters to reduce the response size."

/-- Embedding of `truncate_response(response, items_count)`. -/
def truncate_response (response : String) (items_count : ℕ) : String :=
  if response.length ≤ CHARACTER_LIMIT then response
  else
    let truncated := response.take CHARACTER_LIMIT
    let base :=
      truncNoticeHead ++ commaFmt response.length ++ truncNoticeMid ++
        commaFmt CHARACTER_LIMIT ++ truncNoticeTail
    let tail := if items_count > 0 then truncSuggestFiltered else truncSuggestPlain
    truncated ++ (base ++ tail)

/-- Device snapshot as consumed by `crestron_resolve_device`; only the
fields the scoring loop reads (`name`, `type`, `roomId` via `.get`, and
`id`/`subType` echoed into candidates). -/
structure Device where
  id : ℕ
  name : String
  type : String
  subType : Option String
  roomId : Option ℕ
deriving Repr, DecidableEq

/-- Room record from the `/rooms` listing. -/
structure Room where
  id : ℕ
  name : String
deriving Repr, DecidableEq

/-- Python's `str.lower()` on the ASCII strings appearing in this
development: lower-case every character.  Defined over the character
list so concrete instances evaluate inside the kernel. -/
def pyLower (s : String) : String :=
  String.mk (s.data.map Char.toLower)

/-- Scan for `needle` at every suffix of the haystack character list;
the empty needle matches everywhere, as in Python. -/
def containsAux (needle : List Char) : List Char → Bool
  | [] => needle.isEmpty
  | c :: rest => needle.isPrefixOf (c :: rest) || containsAux needle rest

/-- Python's substring test `needle in hay`. -/
def strContains (hay needle : String) : Bool :=
  containsAux needle.data hay.data

/-- Accumulating scanner behind `pySplit`: `acc` holds the current word
reversed; whitespace closes a word, empty pieces are dropped. -/
def pySplitAux : List Char → List Char → List String
  | [], acc => if acc.isEmpty then [] else [String.mk acc.reverse]
  | c :: rest, acc =>
    if c.isWhitespace then
      if acc.isEmpty then pySplitAux rest []
      else String.mk acc.reverse :: pySplitAux rest []
    else pySplitAux rest (c :: acc)

/-- Python's `str.split()` with no arguments: split on runs of
whitespace, discarding empty pieces. -/
def pySplit (s : String) : List String :=
  pySplitAux s.data []

/-- The dict comprehension `{r["id"]: r["name"].lower() for r in rooms}`
read back as a lookup: later entries overwrite earlier ones, so the
last room with a given id wins. -/
def room_map (rooms : List Room) (i : ℕ) : Option String :=
  (rooms.reverse.find? (fun r => r.id = i)).map (fun r => pyLower r.name)

/-- Name bonus from the scoring loop: `+0.5` when the lower-cased
device name is a substring of the utterance or vice versa. -/
def nameBonus (u_low name_low : String) : ℚ :=
  if strContains u_low name_low || strContains name_low u_low then 1/2 else 0

/-- Type bonus: `+0.3` when the lower-cased type token occurs inside
the utterance. -/
def typeBonus (u_low type_low : String) : ℚ :=
  if strContains u_low type_low then 3/10 else 0

/-- Room bonus: `+0.2` when a truthy preferred room id equals the
device's room id, else `+0.2` when the device's room id is listed and
its lower-cased room name occurs inside the utterance. -/
def roomBonus (pref : Option ℕ) (roomId : Option ℕ)
    (rm : ℕ → Option String) (u_low : String) : ℚ :=
  if (match pref with
      | some p => !(p = 0) && (roomId = some p : Bool)
      | none => false) then 1/5
  else
    match roomId with
    | some i =>
      match rm i with
      | some rn => if strContains u_low rn then 1/5 else 0
      | none => 0
    | none => 0

/-- Size of the Python set intersection
`set(utterance.split()) & set(device_name.split())`: distinct shared
tokens counted once each. -/
def overlapCount (u_low name_low : String) : ℕ :=
  ((pySplit u_low).dedup.filter (fun w => (pySplit name_low).contains w)).length

/-- Word-overlap bonus: `0.1` per distinct whitespace token shared
between the lower-cased utterance and the lower-cased device name
(Python set intersection). -/
def overlapBonus (u_low name_low : String) : ℚ :=
  (1/10 : ℚ) * (overlapCount u_low name_low : ℚ)

/-- Score of one device in the resolver loop, before the `min(·, 1.0)`
clamp: the sum of the four bonuses. -/
def scoreDevice (u_low : String) (pref : Option ℕ)
    (rm : ℕ → Option String) (d : Device) : ℚ :=
  nameBonus u_low (pyLower d.name) + typeBonus u_low (pyLower d.type) +
    roomBonus pref d.roomId rm u_low + overlapBonus u_low (pyLower d.name)

/-- The `matches` list: devices with positive score, paired with their
clamped score, in original listing order. -/
def computeMatches (utterance : String) (pref : Option ℕ)
    (devices : List Device) (rooms : List Room) : List (Device × ℚ) :=
  let u_low := pyLower utterance
  devices.filterMap (fun d =>
    let sc := scoreDevice u_low pref (room_map rooms) d
    if sc > 0 then some (d, min sc 1) else none)

/-- Stable insertion of one scored device into a descending list:
strictly greater scores stay in front, equal scores keep their original
relative order (the element being inserted goes first among equals,
matching a stable descending sort of the original order). -/
def insertDesc (x : Device × ℚ) : List (Device × ℚ) → List (Device × ℚ)
  | [] => [x]
  | y :: ys => if x.2 < y.2 then y :: insertDesc x ys else x :: y :: ys

/-- Stable descending sort by score, the semantics of
`matches.sort(key=lambda x: x["score"], reverse=True)`. -/
def sortDesc : List (Device × ℚ) → List (Device × ℚ)
  | [] => []
  | x :: xs => insertDesc x (sortDesc xs)

/-- Python's `round(x, 2)` on the rational scores of the resolver: all
reachable scores are multiples of `1/10`, where rounding to two
decimals is exact, so half-to-even versus half-up is immaterial. -/
def round2 (q : ℚ) : ℚ := (round (q * 100) : ℚ) / 100

/-- One entry of the `candidates` array in the clarification branch. -/
structure Candidate where
  device_id : ℕ
  name : String
  type : String
  subType : Option String
  room_id : Option ℕ
  confidence : ℚ
deriving Repr, DecidableEq

/-- The three shapes of the resolver's JSON response: no matches at
all, a single high-confidence resolution, or a clarification request
with the top-five candidates. -/
inductive Resolution where
  | noMatches
  | resolved (device_id : ℕ) (device_name : String) (device_type : String)
      (room_id : Option ℕ) (confidence : ℚ)
  | clarify (confidence : ℚ) (candidates : List Candidate)
deriving Repr, DecidableEq

/-- Embedding of the decision part of `crestron_resolve_device`, given
the two listings the tool fetches through the dispatcher. -/
def crestron_resolve_device (utterance : String) (pref : Option ℕ)
    (devices : List Device) (rooms : List Room) : Resolution :=
  let sorted := sortDesc (computeMatches utterance pref devices rooms)
  match sorted with
  | [] => Resolution.noMatches
  | top :: _ =>
    if top.2 ≥ 4/5 then
      Resolution.resolved top.1.id top.1.name top.1.type top.1.roomId top.2
    else
      Resolution.clarify top.2
        ((sorted.take 5).map (fun m =>
          { device_id := m.1.id, name := m.1.name, type := m.1.type,
            subType := m.1.subType, room_id := m.1.roomId,
            confidence := round2 m.2 }))

/-- C3: with `requireAuth` and no valid session the dispatcher fails
with `NotAuthenticated` and attempts no network call; and the local
validity check, on a session whose credential and issuance time are
both set (issuance after the clock start, clock monotone), succeeds
exactly when the credential is non-empty and the elapsed time is
strictly below the 540-second threshold; a session that passes the
check always has a set, non-empty credential and an issuance time. -/
theorem c3_auth_gate_and_validity :
    (∀ (α : Type) (s : CrestronSession) (now : ℕ) (remote : Except ℕ α),
        is_valid s now = false →
        api_request true s now remote = (Except.error ApiError.notAuthenticated, 0))
    ∧ (∀ (s : CrestronSession) (k : String) (t now : ℕ),
        s.auth_key = some k → s.session_start = some t → 0 < t → t ≤ now →
        (is_valid s now = true ↔ (k ≠ "" ∧ now - t < SESSION_TIMEOUT)))
    ∧ (∀ (s : CrestronSession) (now : ℕ), is_valid s now = true →
        s.auth_key ≠ none ∧ s.auth_key ≠ some "" ∧ s.session_start ≠ none) := by
  refine ⟨?_, ?_, ?_⟩
  · intro α s now remote h
    simp [api_request, h]
  · intro s k t now hk ht ht0 htn
    simp only [is_valid, hk, ht, SESSION_TIMEOUT]
    have ht0' : t ≠ 0 := by omega
    rcases eq_or_ne k "" with rfl | hk0
    · simp
    · simp only [hk0, if_false, ht0', decide_eq_true_eq, ne_eq,
        not_false_iff, true_and]
      omega
  · intro s now h
    obtain ⟨ho, ha, hs⟩ := s
    cases ha with
    | none => simp [is_valid] at h
    | some k =>
      cases hs with
      | none => simp [is_valid] at h
      | some t =>
        by_cases hk : k = ""
        · simp [is_valid, hk] at h
        · simp [hk]

/-- Closed instance of C3: a fresh process with no session is turned
away with zero network calls, and a 10-seconds-old session with a
non-empty key is valid. -/
theorem c3_auth_gate_witness :
    api_request true ⟨none, none, none⟩ 0 (Except.ok 7)
      = (Except.error ApiError.notAuthenticated, 0)
    ∧ (is_valid ⟨some "h", some "KEY", some 5⟩ 15 = true ↔
        ("KEY" ≠ "" ∧ 15 - 5 < SESSION_TIMEOUT)) :=
  ⟨c3_auth_gate_and_validity.1 ℕ ⟨none, none, none⟩ 0 (Except.ok 7) (by decide),
   c3_auth_gate_and_validity.2.1 ⟨some "h", some "KEY", some 5⟩ "KEY" 5 15 rfl rfl
     (by decide) (by decide)⟩

/-- C4: converting a percentage to the raw scale and back lands within
1 of the original for every `p ∈ [0,100]`, with the endpoints 0 and 100
mapped exactly to 0 and 65535. -/
theorem c4_roundtrip_within_one :
    (∀ p < 101, ((raw_to_pct (pct_to_raw p) : ℤ) - (p : ℤ)).natAbs ≤ 1)
    ∧ pct_to_raw 0 = 0 ∧ pct_to_raw 100 = 65535 := by decide

/-- Closed instance of C4 at the midpoint percentage. -/
theorem c4_roundtrip_witness :
    ((raw_to_pct (pct_to_raw 50) : ℤ) - (50 : ℤ)).natAbs ≤ 1 :=
  c4_roundtrip_within_one.1 50 (by decide)

/-- C5: when the login exchange fails, `authenticate` returns the
stored session untouched and propagates the error, so any previously
valid session stays valid. -/
theorem c5_failed_auth_preserves_session :
    ∀ (s : CrestronSession) (host : String) (now c : ℕ),
      (authenticate s host now (Except.error c)).1 = s
      ∧ (authenticate s host now (Except.error c)).2 = Except.error c
      ∧ ∀ t, is_valid s t = true →
          is_valid (authenticate s host now (Except.error c)).1 t = true := by
  intro s host now c
  exact ⟨rfl, rfl, fun t h => h⟩

/-- Closed instance of C5: a valid session survives a rejected
re-authentication attempt. -/
theorem c5_failed_auth_witness :
    is_valid (authenticate ⟨some "h", some "KEY", some 5⟩ "other" 99
      (Except.error 401)).1 15 = true :=
  (c5_failed_auth_preserves_session ⟨some "h", some "KEY", some 5⟩ "other" 99 401).2.2
    15 (by decide)

/-- C6 counterexample: at `p = 2` the source computes
`int(2 * 65535 / 100) = 1310` while round-to-nearest gives 1311
(`1310.7` is not a tie, so the tie rule is irrelevant), refuting the
claim that the write path rounds to nearest. -/
theorem c6_write_path_counterexample :
    pct_to_raw 2 = 1310 ∧ spec_round_to_raw 2 = 1311
    ∧ pct_to_raw 2 ≠ spec_round_to_raw 2 := by decide

/-- C6 amended: both conversions truncate — the write path satisfies
the floor characterization of `p * 65535 / 100` and the read path the
floor characterization of `r * 100 / 65535`, the same rule on both
paths rather than round-to-nearest on the write path. -/
theorem c6_write_path_truncates :
    (∀ p : ℕ, pct_to_raw p * 100 ≤ p * 65535 ∧ p * 65535 < (pct_to_raw p + 1) * 100)
    ∧ (∀ r : ℕ, raw_to_pct r * 65535 ≤ r * 100 ∧ r * 100 < (raw_to_pct r + 1) * 65535) := by
  constructor
  · intro p
    have h := Nat.div_add_mod (p * 65535) 100
    have h2 : (p * 65535) % 100 < 100 := Nat.mod_lt _ (by norm_num)
    unfold pct_to_raw
    omega
  · intro r
    have h := Nat.div_add_mod (r * 100) 65535
    have h2 : (r * 100) % 65535 < 65535 := Nat.mod_lt _ (by norm_num)
    unfold raw_to_pct
    omega

/-- C9: whenever the batch call goes through and the remote answers
2xx, the reported `shades_updated` equals the full request length and
the remote body is passed through verbatim — the count never reflects
per-item failures. -/
theorem c9_shades_updated_is_request_length :
    ∀ (shades : List ShadePosition) (sess : CrestronSession) (now : ℕ)
      (remote : List ShadePosition → Except ℕ SetStateResp) (resp : SetStateResp),
      is_valid sess now = true →
      remote (shades.map (fun sh => ⟨sh.id, pct_to_raw sh.position⟩)) = Except.ok resp →
      ∃ r : ShadeSetResponse,
        (crestron_set_shade_position shades sess now remote).1 = SetShadeOutput.ok r
        ∧ r.shades_updated = shades.length
        ∧ r.status = resp.status.getD "unknown"
        ∧ r.details = resp := by
  intro shades sess now remote resp hv hr
  simp only [crestron_set_shade_position, api_request, hv, Bool.not_true,
    Bool.and_false, Bool.false_eq_true, if_false, hr]
  exact ⟨_, rfl, rfl, rfl, rfl⟩

/-- Closed instance of C9: a three-command batch with one remote-failed
id still reports `shades_updated = 3`. -/
theorem c9_shades_updated_witness :
    ∃ r : ShadeSetResponse,
      (crestron_set_shade_position [⟨10, 50⟩, ⟨11, 50⟩, ⟨12, 50⟩]
        ⟨some "h", some "KEY", some 5⟩ 10
        (fun _ => Except.ok ⟨some "partial", none, some [11], none⟩)).1
        = SetShadeOutput.ok r
      ∧ r.shades_updated = 3
      ∧ r.status = (some "partial").getD "unknown"
      ∧ r.details = ⟨some "partial", none, some [11], none⟩ :=
  c9_shades_updated_is_request_length [⟨10, 50⟩, ⟨11, 50⟩, ⟨12, 50⟩]
    ⟨some "h", some "KEY", some 5⟩ 10
    (fun _ => Except.ok ⟨some "partial", none, some [11], none⟩)
    ⟨some "partial", none, some [11], none⟩ (by decide) rfl

/-- C1: evaluation of the batch dispatcher at a three-target command
where the remote reports exactly one failing id.  The code forwards the
remote's `status` and raw body and reports `shades_updated = 3`; it
never interprets `errorDevices` into succeeded/failed id sets (the
response type has no such fields), contradicting both the claim and the
function's own docstring. -/
theorem c1_partial_batch_not_interpreted :
    crestron_set_shade_position [⟨10, 50⟩, ⟨11, 50⟩, ⟨12, 50⟩]
      ⟨some "h", some "KEY", some 5⟩ 10
      (fun _ => Except.ok ⟨some "partial",
        some "Shade(s) with ID(s) [11] failed to update.", some [11],
        some "1.000.0001"⟩)
    = (SetShadeOutput.ok
        { status := "partial", shades_updated := 3,
          details := ⟨some "partial",
            some "Shade(s) with ID(s) [11] failed to update.", some [11],
            some "1.000.0001"⟩,
          message := some ("Some shades failed to update. Check \x27errorDevices\x27 in details. " ++
            "Verify shade IDs are correct and devices are online.") }, 1) := by
  decide

/-- C10: a 2xx login whose body lacks `AuthKey` stores `None` as the
credential yet reports status success; every later authenticated
dispatcher call is then refused locally with no network attempt. -/
theorem c10_missing_authkey_locks_out :
    ∀ (s : CrestronSession) (host : String) (v : Option String) (now : ℕ),
      (crestron_authenticate s host now (Except.ok ⟨none, v⟩)).2.status = "success"
      ∧ (crestron_authenticate s host now (Except.ok ⟨none, v⟩)).1.auth_key = none
      ∧ ∀ (α : Type) (now2 : ℕ) (remote : Except ℕ α),
          api_request true (crestron_authenticate s host now (Except.ok ⟨none, v⟩)).1
              now2 remote
            = (Except.error ApiError.notAuthenticated, 0) := by
  intro s host v now
  exact ⟨rfl, rfl, fun α now2 remote => rfl⟩

/-- C8: a serialized response within the 25,000-character budget is
returned unchanged; a longer one is returned as its first 25,000
characters followed by a notice that contains the rendered original
length, the rendered budget, and a suggestion mentioning filters. -/
theorem c8_response_truncation :
    (∀ (r : String) (i : ℕ), r.length ≤ CHARACTER_LIMIT → truncate_response r i = r)
    ∧ (∀ (r : String) (i : ℕ), CHARACTER_LIMIT < r.length →
        ∃ notice : String,
          truncate_response r i = r.take CHARACTER_LIMIT ++ notice
          ∧ (∃ a b, notice.data = a ++ (commaFmt r.length).data ++ b)
          ∧ (∃ a b, notice.data = a ++ (commaFmt CHARACTER_LIMIT).data ++ b)
          ∧ (∃ a b, notice.data = a ++ "filters".data ++ b)) := by
  constructor
  · intro r i h
    simp [truncate_response, h]
  · intro r i h
    rw [truncate_response, if_neg (by omega)]
    have hsf : truncSuggestFiltered
        = "Try using " ++ "filters" ++
          ", reducing the limit parameter, or requesting specific items to see more details." := by decide
    have hsp : truncSuggestPlain
        = "Try requesting specific items or using " ++ "filters" ++
          " to reduce the response size." := by decide
    rcases Nat.eq_zero_or_pos i with hi | hi
    · refine ⟨truncNoticeHead ++ commaFmt r.length ++ truncNoticeMid ++
        commaFmt CHARACTER_LIMIT ++ truncNoticeTail ++ truncSuggestPlain, ?_, ?_, ?_, ?_⟩
      · simp [hi]
      · exact ⟨truncNoticeHead.data,
          truncNoticeMid.data ++ (commaFmt CHARACTER_LIMIT).data ++ truncNoticeTail.data ++
            truncSuggestPlain.data, by simp [String.data_append]⟩
      · exact ⟨truncNoticeHead.data ++ (commaFmt r.length).data ++ truncNoticeMid.data,
          truncNoticeTail.data ++ truncSuggestPlain.data, by simp [String.data_append]⟩
      · exact ⟨truncNoticeHead.data ++ (commaFmt r.length).data ++ truncNoticeMid.data ++
            (commaFmt CHARACTER_LIMIT).data ++ truncNoticeTail.data ++
            "Try requesting specific items or using ".data,
          " to reduce the response size.".data, by simp [hsp, String.data_append]⟩
    · refine ⟨truncNoticeHead ++ commaFmt r.length ++ truncNoticeMid ++
        commaFmt CHARACTER_LIMIT ++ truncNoticeTail ++ truncSuggestFiltered, ?_, ?_, ?_, ?_⟩
      · simp [hi]
      · exact ⟨truncNoticeHead.data,
          truncNoticeMid.data ++ (commaFmt CHARACTER_LIMIT).data ++ truncNoticeTail.data ++
            truncSuggestFiltered.data, by simp [String.data_append]⟩
      · exact ⟨truncNoticeHead.data ++ (commaFmt r.length).data ++ truncNoticeMid.data,
          truncNoticeTail.data ++ truncSuggestFiltered.data, by simp [String.data_append]⟩
      · exact ⟨truncNoticeHead.data ++ (commaFmt r.length).data ++ truncNoticeMid.data ++
            (commaFmt CHARACTER_LIMIT).data ++ truncNoticeTail.data ++ "Try using ".data,
          ", reducing the limit parameter, or requesting specific items to see more details.".data,
          by simp [hsf, String.data_append]⟩

/-- Closed instance of C8: a short response passes through unchanged
and a 25,001-character response is truncated with the full notice. -/
theorem c8_truncation_witness :
    truncate_response "ok" 3 = "ok"
    ∧ ∃ notice : String,
        truncate_response (String.mk (List.replicate 25001 'a')) 0
          = (String.mk (List.replicate 25001 'a')).take CHARACTER_LIMIT ++ notice
        ∧ (∃ a b, notice.data = a ++ (commaFmt (String.mk (List.replicate 25001 'a')).length).data ++ b)
        ∧ (∃ a b, notice.data = a ++ (commaFmt CHARACTER_LIMIT).data ++ b)
        ∧ (∃ a b, notice.data = a ++ "filters".data ++ b) :=
  ⟨c8_response_truncation.1 "ok" 3 (by decide),
   c8_response_truncation.2 (String.mk (List.replicate 25001 'a')) 0
     (by
       have h25 : (String.mk (List.replicate 25001 'a')).length = 25001 := by
         show (List.replicate 25001 'a').length = 25001
         rw [List.length_replicate]
       rw [h25]
       decide)⟩

/-- C2 counterexample: for the utterance "soggiorno lampadario" and
the device "Lampadario Soggiorno" in room 1 "Soggiorno", the
name-substring test fails in both directions (the word order differs),
so the score is 0.4 — room-name bonus 0.2 plus two shared tokens 0.2 —
which is below the 0.8 threshold, and the resolver answers with a
clarification request instead of resolving. -/
theorem c2_scenario_a_counterexample :
    nameBonus "soggiorno lampadario" (pyLower "Lampadario Soggiorno") = 0
    ∧ scoreDevice "soggiorno lampadario" none (room_map [⟨1, "Soggiorno"⟩])
        ⟨5, "Lampadario Soggiorno", "light", none, some 1⟩ = 2/5
    ∧ ((2 : ℚ)/5 < 4/5)
    ∧ crestron_resolve_device "soggiorno lampadario" none
        [⟨5, "Lampadario Soggiorno", "light", none, some 1⟩] [⟨1, "Soggiorno"⟩]
      = Resolution.clarify (2/5) [⟨5, "Lampadario Soggiorno", "light", none, some 1, 2/5⟩] := by
  have hpl : pyLower "soggiorno lampadario" = "soggiorno lampadario" := by decide
  have h1 : strContains "soggiorno lampadario" (pyLower "Lampadario Soggiorno") = false := by decide
  have h2 : strContains (pyLower "Lampadario Soggiorno") "soggiorno lampadario" = false := by decide
  have h3 : strContains "soggiorno lampadario" (pyLower "light") = false := by decide
  have h4 : room_map [(⟨1, "Soggiorno"⟩ : Room)] 1 = some "soggiorno" := by decide
  have h5 : strContains "soggiorno lampadario" "soggiorno" = true := by decide
  have h6 : overlapCount "soggiorno lampadario" (pyLower "Lampadario Soggiorno") = 2 := by decide
  have hname : nameBonus "soggiorno lampadario" (pyLower "Lampadario Soggiorno") = 0 := by
    simp [nameBonus, h1, h2]
  have hscore : scoreDevice "soggiorno lampadario" none (room_map [⟨1, "Soggiorno"⟩])
      ⟨5, "Lampadario Soggiorno", "light", none, some 1⟩ = 2/5 := by
    simp [scoreDevice, nameBonus, typeBonus, roomBonus, overlapBonus, h1, h2, h3, h4, h5, h6]
    norm_num
  have hround : round2 (2/5 : ℚ) = 2/5 := by
    rw [round2, show ((2:ℚ)/5 * 100) = ((40:ℤ):ℚ) by norm_num, round_intCast]
    norm_num
  refine ⟨hname, hscore, by norm_num, ?_⟩
  rw [crestron_resolve_device, computeMatches, hpl]
  simp only [List.filterMap, hscore]
  norm_num [sortDesc, insertDesc, min_def, hround]

/-- C2 amended: in Scenario A the device earns no name-substring
bonus and no type bonus; it earns the 0.2 room-name bonus and 0.2 from
the two shared name tokens, for a total of 0.4, and the resolver
returns it as the sole clarification candidate with confidence 0.4. -/
theorem c2_scenario_a_amended :
    typeBonus "soggiorno lampadario" (pyLower "light") = 0
    ∧ roomBonus none (some 1) (room_map [⟨1, "Soggiorno"⟩]) "soggiorno lampadario" = 1/5
    ∧ overlapBonus "soggiorno lampadario" (pyLower "Lampadario Soggiorno") = 1/5
    ∧ scoreDevice "soggiorno lampadario" none (room_map [⟨1, "Soggiorno"⟩])
        ⟨5, "Lampadario Soggiorno", "light", none, some 1⟩ = 2/5
    ∧ crestron_resolve_device "soggiorno lampadario" none
        [⟨5, "Lampadario Soggiorno", "light", none, some 1⟩] [⟨1, "Soggiorno"⟩]
      = Resolution.clarify (2/5) [⟨5, "Lampadario Soggiorno", "light", none, some 1, 2/5⟩] := by
  have hpl : pyLower "soggiorno lampadario" = "soggiorno lampadario" := by decide
  have h1 : strContains "soggiorno lampadario" (pyLower "Lampadario Soggiorno") = false := by decide
  have h2 : strContains (pyLower "Lampadario Soggiorno") "soggiorno lampadario" = false := by decide
  have h3 : strContains "soggiorno lampadario" (pyLower "light") = false := by decide
  have h4 : room_map [(⟨1, "Soggiorno"⟩ : Room)] 1 = some "soggiorno" := by decide
  have h5 : strContains "soggiorno lampadario" "soggiorno" = true := by decide
  have h6 : overlapCount "soggiorno lampadario" (pyLower "Lampadario Soggiorno") = 2 := by decide
  have hscore : scoreDevice "soggiorno lampadario" none (room_map [⟨1, "Soggiorno"⟩])
      ⟨5, "Lampadario Soggiorno", "light", none, some 1⟩ = 2/5 := by
    simp [scoreDevice, nameBonus, typeBonus, roomBonus, overlapBonus, h1, h2, h3, h4, h5, h6]
    norm_num
  have hround : round2 (2/5 : ℚ) = 2/5 := by
    rw [round2, show ((2:ℚ)/5 * 100) = ((40:ℤ):ℚ) by norm_num, round_intCast]
    norm_num
  refine ⟨by simp [typeBonus, h3], ?_, ?_, hscore, ?_⟩
  · simp [roomBonus, h4, h5]
  · rw [overlapBonus, h6]
    norm_num
  · rw [crestron_resolve_device, computeMatches, hpl]
    simp only [List.filterMap, hscore]
    norm_num [sortDesc, insertDesc, min_def, hround]

/-- C7 counterexample: for the utterance "luce" and two light devices
with no name overlap, the type token "light" is not a substring of
"luce", so both devices score 0 — not 0.3 — are discarded, and the
resolver reports no matches rather than a clarification with the two
devices as candidates. -/
theorem c7_scenario_b_counterexample :
    typeBonus "luce" (pyLower "light") = 0
    ∧ scoreDevice "luce" none (room_map [⟨1, "Soggiorno"⟩])
        ⟨1, "Lampada Nord", "light", none, some 1⟩ = 0
    ∧ scoreDevice "luce" none (room_map [⟨1, "Soggiorno"⟩])
        ⟨2, "Lampada Sud", "light", none, some 1⟩ = 0
    ∧ crestron_resolve_device "luce" none
        [⟨1, "Lampada Nord", "light", none, some 1⟩,
         ⟨2, "Lampada Sud", "light", none, some 1⟩]
        [⟨1, "Soggiorno"⟩] = Resolution.noMatches := by
  have hpl : pyLower "luce" = "luce" := by decide
  have ht : strContains "luce" (pyLower "light") = false := by decide
  have ha1 : strContains "luce" (pyLower "Lampada Nord") = false := by decide
  have ha2 : strContains (pyLower "Lampada Nord") "luce" = false := by decide
  have hb1 : strContains "luce" (pyLower "Lampada Sud") = false := by decide
  have hb2 : strContains (pyLower "Lampada Sud") "luce" = false := by decide
  have h4 : room_map [(⟨1, "Soggiorno"⟩ : Room)] 1 = some "soggiorno" := by decide
  have h5 : strContains "luce" "soggiorno" = false := by decide
  have ho1 : overlapCount "luce" (pyLower "Lampada Nord") = 0 := by decide
  have ho2 : overlapCount "luce" (pyLower "Lampada Sud") = 0 := by decide
  have hs1 : scoreDevice "luce" none (room_map [⟨1, "Soggiorno"⟩])
      ⟨1, "Lampada Nord", "light", none, some 1⟩ = 0 := by
    simp [scoreDevice, nameBonus, typeBonus, roomBonus, overlapBonus,
      ha1, ha2, ht, h4, h5, ho1]
  have hs2 : scoreDevice "luce" none (room_map [⟨1, "Soggiorno"⟩])
      ⟨2, "Lampada Sud", "light", none, some 1⟩ = 0 := by
    simp [scoreDevice, nameBonus, typeBonus, roomBonus, overlapBonus,
      hb1, hb2, ht, h4, h5, ho2]
  refine ⟨by simp [typeBonus, ht], hs1, hs2, ?_⟩
  rw [crestron_resolve_device, computeMatches, hpl]
  simp only [List.filterMap, hs1, hs2]
  norm_num [sortDesc]

/-- C7 amended: in Scenario B the type token "light" is not a
substring of the utterance "luce", both devices score 0 and are
discarded, the candidate list is empty, and the resolver returns the
no-matches response rather than a clarification. -/
theorem c7_scenario_b_amended :
    strContains "luce" (pyLower "light") = false
    ∧ computeMatches "luce" none
        [⟨1, "Lampada Nord", "light", none, some 1⟩,
         ⟨2, "Lampada Sud", "light", none, some 1⟩]
        [⟨1, "Soggiorno"⟩] = []
    ∧ crestron_resolve_device "luce" none
        [⟨1, "Lampada Nord", "light", none, some 1⟩,
         ⟨2, "Lampada Sud", "light", none, some 1⟩]
        [⟨1, "Soggiorno"⟩] = Resolution.noMatches := by
  have hpl : pyLower "luce" = "luce" := by decide
  have ht : strContains "luce" (pyLower "light") = false := by decide
  have ha1 : strContains "luce" (pyLower "Lampada Nord") = false := by decide
  have ha2 : strContains (pyLower "Lampada Nord") "luce" = false := by decide
  have hb1 : strContains "luce" (pyLower "Lampada Sud") = false := by decide
  have hb2 : strContains (pyLower "Lampada Sud") "luce" = false := by decide
  have h4 : room_map [(⟨1, "Soggiorno"⟩ : Room)] 1 = some "soggiorno" := by decide
  have h5 : strContains "luce" "soggiorno" = false := by decide
  have ho1 : overlapCount "luce" (pyLower "Lampada Nord") = 0 := by decide
  have ho2 : overlapCount "luce" (pyLower "Lampada Sud") = 0 := by decide
  have hs1 : scoreDevice "luce" none (room_map [⟨1, "Soggiorno"⟩])
      ⟨1, "Lampada Nord", "light", none, some 1⟩ = 0 := by
    simp [scoreDevice, nameBonus, typeBonus, roomBonus, overlapBonus,
      ha1, ha2, ht, h4, h5, ho1]
  have hs2 : scoreDevice "luce" none (room_map [⟨1, "Soggiorno"⟩])
      ⟨2, "Lampada Sud", "light", none, some 1⟩ = 0 := by
    simp [scoreDevice, nameBonus, typeBonus, roomBonus, overlapBonus,
      hb1, hb2, ht, h4, h5, ho2]
  have hcm : computeMatches "luce" none
      [⟨1, "Lampada Nord", "light", none, some 1⟩,
       ⟨2, "Lampada Sud", "light", none, some 1⟩]
      [⟨1, "Soggiorno"⟩] = [] := by
    rw [computeMatches, hpl]
    simp only [List.filterMap, hs1, hs2]
    norm_num
  refine ⟨ht, hcm, ?_⟩
  rw [crestron_resolve_device, hcm]
  rfl

end Crestron
